import Mathlib

/-!
Shallow embedding of the backup / media-serving subsystem of
MobileSdCardBackup (`src/backend/fs_api.py`), with theorems checking the
specification's claims about it.

Modelling conventions:
* Text is modelled as `List Char` (Python `str` operations are re-implemented
  character by character, so that every definition is executable and
  kernel-reducible).
* Filesystem paths are lists of path components (`List (List Char)`); a
  component list renders to the Python `str(Path)` form via `pathChars`.
  `Path.resolve()` is modelled on a symlink-free filesystem: `.` and empty
  segments are dropped and `..` pops a component (staying at the root when
  already there), which is exactly what `resolve()` computes when no symlink
  is involved.  Roots handed to `safe_join` are assumed already canonical
  (they come from `MEDIA_ROOT.iterdir()`, which yields canonical paths).
* Effects (drive availability, `mkdir`, `Popen`, the subprocess's combined
  output and exit code, the current time) are supplied by explicit
  environment records; Python exceptions are `Except.error` values.
* Loops are translated with an explicit fuel argument equal to a bound on the
  number of iterations, so the definitions stay structurally recursive and
  computable; lemmas show the fuel is always sufficient.
-/

set_option maxRecDepth 8000

/-! ## Python string primitives -/

/-- Python `str.strip()` (default whitespace) on a character list. -/
def pyStrip (l : List Char) : List Char :=
  ((l.dropWhile Char.isWhitespace).reverse.dropWhile Char.isWhitespace).reverse

/-- Python `str.lstrip(c)` for a single strip character. -/
def pyLstrip (c : Char) (l : List Char) : List Char :=
  l.dropWhile (fun x => x = c)

/-- Python `str.split(sep)` for a single-character separator:
`"".split("/") = [""]`, `"a//b".split("/") = ["a","","b"]`. -/
def splitChar (sep : Char) : List Char → List (List Char)
  | [] => [[]]
  | c :: cs =>
    match splitChar sep cs with
    | [] => [[]]
    | h :: t => if c = sep then [] :: h :: t else (c :: h) :: t

/-- Python `str.partition(sep)` for a single-character separator: the part
before the first occurrence, and (when the separator occurs) the part after
it.  `none` in the second component models "separator absent" (Python's
`("s", "", "")`). -/
def pyPartition (sep : Char) : List Char → List Char × Option (List Char)
  | [] => ([], none)
  | c :: cs =>
    if c = sep then ([], some cs)
    else
      match pyPartition sep cs with
      | (pre, rest) => (c :: pre, rest)

/-- Python `str.lower()` restricted to ASCII (the drive names involved are
ASCII). -/
def pyLower (l : List Char) : List Char :=
  l.map (fun c => if 'A' ≤ c ∧ c ≤ 'Z' then Char.ofNat (c.toNat + 32) else c)

/-- Python substring test `needle in hay` (contiguous substring). -/
def listContains (needle hay : List Char) : Bool :=
  hay.tails.any (fun t => needle.isPrefixOf t)

/-- Numeric value of a list of decimal digit characters. -/
def digitsVal (l : List Char) : Nat :=
  l.foldl (fun a c => a * 10 + (c.toNat - 48)) 0

/-- Python `int(s)` restricted to canonical decimal numerals (an optional
leading minus sign followed by digits); anything else raises `ValueError`,
modelled as `none`.  (Python also accepts surrounding whitespace, a `+` sign
and `_` separators; the claims only involve canonical numerals.) -/
def pyIntOpt (l : List Char) : Option Int :=
  if l.head? = some '-' then
    (if l.tail ≠ [] ∧ l.tail.all Char.isDigit then some (-(digitsVal l.tail : Int)) else none)
  else
    (if l ≠ [] ∧ l.all Char.isDigit then some (digitsVal l : Int) else none)

/-- Decimal digit characters of a natural number (fuel-driven; fuel `n+1`
always suffices since the number of digits is at most `n+1`). -/
def natToCharsF : Nat → Nat → List Char
  | 0, _ => []
  | fuel + 1, n =>
    if n < 10 then [Char.ofNat (48 + n)]
    else natToCharsF fuel (n / 10) ++ [Char.ofNat (48 + n % 10)]

/-- Decimal rendering of a natural number. -/
def natToChars (n : Nat) : List Char := natToCharsF (n + 1) n

/-- Decimal rendering of an integer (Python `f"{i}"`). -/
def intToChars : Int → List Char
  | Int.ofNat n => natToChars n
  | Int.negSucc n => '-' :: natToChars (n + 1)

/-! ## PathSandbox: `safe_join` (fs_api.py lines 34-39) -/

/-- Rendering of a component list as `str(Path)`: `"/" + "/".join(comps)`
(so `[]` renders as `"/"`). -/
def pathChars (comps : List (List Char)) : List Char :=
  '/' :: List.intercalate ['/'] comps

/-- The canonicalisation performed by `Path.resolve()` on a symlink-free
tree: starting from the (already canonical) base, empty and `.` segments are
dropped, `..` pops one component (a no-op at the filesystem root), any other
segment is appended. -/
def resolveComps (base : List (List Char)) (parts : List (List Char)) : List (List Char) :=
  parts.foldl
    (fun acc part =>
      if part = [] ∨ part = ".".toList then acc
      else if part = "..".toList then acc.dropLast
      else acc ++ [part])
    base

/-- `safe_join(root, rel)` (fs_api.py lines 34-39): strip surrounding
whitespace and leading slashes from `rel`, join to `root`, resolve, then
accept if and only if `str(p).startswith(str(root))`; otherwise raise
`HTTPException(400)`. -/
def safe_join (root : List (List Char)) (rel : List Char) : Except Nat (List (List Char)) :=
  match resolveComps root (splitChar '/' (pyLstrip '/' (pyStrip rel))) with
  | p => if (pathChars root).isPrefixOf (pathChars p) then .ok p else .error 400

/-! ## The job record (fs_api.py line 27) -/

/-- The global `JOB` dictionary:
`{"running": False, "log": [], "progress": 0, "result": None, "finished_at": None}`. -/
structure Job where
  running : Bool
  log : List (List Char)
  progress : Nat
  result : Option (List Char)
  finished_at : Option Nat
deriving DecidableEq

/-- The full reset written at the start of `run_backup` (lines 263-265). -/
def resetJob : Job :=
  { running := true, log := [], progress := 0, result := none, finished_at := none }

/-! ## Output streaming (fs_api.py lines 313-343) -/

/-- The regex search `re.search(r"(\d+)%", line)`: the value of the first
maximal digit run that is immediately followed by `%`, if any.  The
accumulator carries the digit run currently being read. -/
def progress_search : List Char → Option Nat → Option Nat
  | [], _ => none
  | c :: cs, acc =>
    if c.isDigit then progress_search cs (some ((acc.getD 0) * 10 + (c.toNat - 48)))
    else if c = '%' then
      match acc with
      | some n => some n
      | none => progress_search cs none
    else progress_search cs none

/-- The earliest line cut in the buffer: `min` of the first `"\n"` and the
first `"\r"` position, as in lines 330-334. -/
def findCut (buf : List Char) : Option Nat :=
  match buf.findIdx? (fun c => c = '\n'), buf.findIdx? (fun c => c = '\r') with
  | none, none => none
  | some i, none => some i
  | none, some j => some j
  | some i, some j => some (min i j)

/-- Processing of one extracted line (lines 337-341): a non-empty line is
appended to the log with a trailing newline, and a `NN%` match (if any)
overwrites `progress`. -/
def processLine (job : Job) (line : List Char) : Job :=
  match progress_search line none,
        (if line = [] then job else { job with log := job.log ++ [line ++ ['\n']] }) with
  | some n, j => { j with progress := n }
  | none, j => j

/-- The inner `while` of lines 329-341: repeatedly cut the earliest complete
line out of the buffer and process it.  Each iteration removes at least one
character, so fuel `buf.length` always drives the loop to its natural end. -/
def drainLoopF : Nat → List Char → Job → List Char × Job
  | 0, buf, job => (buf, job)
  | fuel + 1, buf, job =>
    match findCut buf with
    | none => (buf, job)
    | some cut => drainLoopF fuel (buf.drop (cut + 1)) (processLine job (buf.take cut))

/-- The pure line splitter corresponding to `drainLoopF`: the complete lines
cut out of the buffer, and the leftover without a terminator. -/
def splitBufF : Nat → List Char → List (List Char) × List Char
  | 0, buf => ([], buf)
  | fuel + 1, buf =>
    match findCut buf with
    | none => ([], buf)
    | some cut =>
      (buf.take cut :: (splitBufF fuel (buf.drop (cut + 1))).1,
       (splitBufF fuel (buf.drop (cut + 1))).2)

/-- The outer read loop of lines 323-341: each chunk read from the pipe is
appended to the buffer, which is then drained of complete lines. -/
def feedLoop : List (List Char) → List Char → Job → List Char × Job
  | [], buf, job => (buf, job)
  | c :: cs, buf, job =>
    feedLoop cs (drainLoopF (buf ++ c).length (buf ++ c) job).1
      (drainLoopF (buf ++ c).length (buf ++ c) job).2

/-- Pure counterpart of `feedLoop`: all complete lines produced over the
whole chunk sequence, and the final leftover buffer. -/
def feedSplit : List (List Char) → List Char → List (List Char) × List Char
  | [], buf => ([], buf)
  | c :: cs, buf =>
    ((splitBufF (buf ++ c).length (buf ++ c)).1 ++
       (feedSplit cs (splitBufF (buf ++ c).length (buf ++ c)).2).1,
     (feedSplit cs (splitBufF (buf ++ c).length (buf ++ c)).2).2)

/-- Streaming of the subprocess's combined output (lines 323-343), given the
chunks successively returned by `proc.stdout.read(1024)`: drain all complete
lines, then append the leftover (if non-empty) to the log, untouched by the
progress regex. -/
def run_stream (chunks : List (List Char)) (job : Job) : Job :=
  if (feedLoop chunks [] job).1 = [] then (feedLoop chunks [] job).2
  else
    { (feedLoop chunks [] job).2 with
        log := (feedLoop chunks [] job).2.log ++ [(feedLoop chunks [] job).1 ++ ['\n']] }

/-! ## BackupJobEngine: `run_backup` (fs_api.py lines 262-360) -/

/-- Source and destination selector of a backup request:
`cfg["src"]` / `cfg["dst"]` with keys `drive` and `path`. -/
structure SrcDstCfg where
  drive : List Char
  path : List Char
deriving DecidableEq

/-- A backup request `cfg` as consumed by `run_backup` (missing optional
keys are represented by `none` / `[]` / `false`, matching `cfg.get`). -/
structure BackupCfg where
  src : SrcDstCfg
  dst : SrcDstCfg
  items : List (List Char)
  backup_name : Option (List Char)
  overwrite : Bool
  verify : Bool
deriving DecidableEq

/-- Environment of one `run_backup` execution: the `available_drives()`
snapshot (id to root components), whether `dst.mkdir` succeeds, whether
`subprocess.Popen` succeeds, the chunks delivered by the subprocess's
combined output pipe, its exit code, the `time.strftime` timestamp, and the
`time.time()` value written to `finished_at`. -/
structure BackupEnv where
  roots : List (List Char × List (List Char))
  mkdirOk : Bool
  spawnOk : Bool
  chunks : List (List Char)
  returncode : Int
  timestamp : List Char
  now : Nat
deriving DecidableEq

/-- Python dict lookup `roots[k]` over an association list. -/
def lookupDrive {α : Type} (roots : List (List Char × α)) (k : List Char) : Option α :=
  (roots.find? (fun kv => kv.1 == k)).map (fun kv => kv.2)

/-- Text of `str(KeyError(k))` (Python renders it as the reprʼed key). -/
def keyErrorText (k : List Char) : List Char :=
  Char.ofNat 39 :: k ++ [Char.ofNat 39]

/-- Text of the sandbox `HTTPException(400, "Invalid path")` as logged. -/
def invalidPathText : List Char := "Invalid path".toList

/-- Text of an `OSError` raised by `dst.mkdir`. -/
def mkdirErrorText : List Char := "mkdir failed".toList

/-- Text of an `OSError` raised by `subprocess.Popen`. -/
def spawnErrorText : List Char := "spawn failed".toList

/-- Exit-code classification of lines 348-353: `0` is success, `23`/`24`
are warnings, everything else is failure. -/
def classify_exit (rc : Int) : List Char :=
  if rc = 0 then "success".toList
  else if rc = 23 ∨ rc = 24 then "warning".toList
  else "failed".toList

/-- Resolution of the `items` list (line 307): each item is passed to
`safe_join` against the SOURCE DRIVE ROOT; the first failure aborts the run
with the sandbox exception. -/
def resolve_items (src_root : List (List Char)) (items : List (List Char)) :
    Except Nat (List (List (List Char))) :=
  items.mapM (safe_join src_root)

/-- The rsync source arguments (lines 304-309): the resolved items when
`items` is non-empty, otherwise the whole source subtree `str(src_path)+"/"`. -/
def rsync_sources (src_root src_path : List (List Char)) (items : List (List Char)) :
    Except Nat (List (List Char)) :=
  if items = [] then .ok [pathChars src_path ++ ['/']]
  else (resolve_items src_root items).map (List.map pathChars)

/-- The destination directory of lines 278-284: in place when `overwrite`,
otherwise a fresh `name{_}timestamp` subdirectory (spaces in the name
replaced by underscores, the `_` separator omitted when the name already
ends in one). -/
def backup_dst (cfg : BackupCfg) (src_path dst_base : List (List Char))
    (timestamp : List Char) : List (List Char) :=
  if cfg.overwrite then dst_base
  else
    dst_base ++
      [((match cfg.backup_name with
         | some nm => if nm = [] then (match src_path.getLast? with
                                       | some c => if c = [] then "backup".toList else c
                                       | none => "backup".toList)
                      else nm
         | none => match src_path.getLast? with
                   | some c => if c = [] then "backup".toList else c
                   | none => "backup".toList).map
          (fun c => if c = ' ' then '_' else c)) ++
        (if ((match cfg.backup_name with
              | some nm => if nm = [] then (match src_path.getLast? with
                                            | some c => if c = [] then "backup".toList else c
                                            | none => "backup".toList)
                           else nm
              | none => match src_path.getLast? with
                        | some c => if c = [] then "backup".toList else c
                        | none => "backup".toList).map
              (fun c => if c = ' ' then '_' else c)).getLast? = some '_'
         then [] else ['_']) ++ timestamp]

/-- The full rsync argv of lines 286-311 (recorded for reference; the
subprocess's behaviour itself is injected through `BackupEnv`). -/
def rsync_argv (cfg : BackupCfg) (sources : List (List Char)) (dst : List (List Char)) :
    List (List Char) :=
  ["rsync".toList, "-a".toList, "--info=progress2".toList, "--human-readable".toList,
   "--exclude=lost+found".toList, "--exclude=.Trash-*".toList, "--exclude=.Spotlight-*".toList] ++
  (if cfg.verify then ["--checksum".toList] else []) ++
  (if cfg.overwrite then ["--inplace".toList] else ["--ignore-existing".toList]) ++
  sources ++ [pathChars dst]

/-- Body of the `try:` block of `run_backup` (lines 267-353).  An
`Except.error` carries the exception text together with the `JOB` state at
the moment the exception is raised (mutations made before the exception
persist, as they do on the Python global). -/
def runBody (env : BackupEnv) (cfg : BackupCfg) (job : Job) : Except (List Char × Job) Job :=
  match lookupDrive env.roots cfg.src.drive with
  | none => .error (keyErrorText cfg.src.drive, job)
  | some src_root =>
    match lookupDrive env.roots cfg.dst.drive with
    | none => .error (keyErrorText cfg.dst.drive, job)
    | some dst_root =>
      match safe_join src_root cfg.src.path with
      | .error _ => .error (invalidPathText, job)
      | .ok src_path =>
        match safe_join dst_root cfg.dst.path with
        | .error _ => .error (invalidPathText, job)
        | .ok _dst_base =>
          if ¬ env.mkdirOk then .error (mkdirErrorText, job)
          else
            match rsync_sources src_root src_path cfg.items with
            | .error _ => .error (invalidPathText, job)
            | .ok _sources =>
              if ¬ env.spawnOk then .error (spawnErrorText, job)
              else
                .ok { run_stream env.chunks job with
                        result := some (classify_exit env.returncode) }

/-- `run_backup(cfg)` (lines 262-360) as a transition on the `JOB` record:
reset the record, run the body, catch any exception by setting the result to
`"failed"` and appending the exception text (lines 355-357), and
unconditionally clear `running` and stamp `finished_at` (lines 359-360).
The prior record is overwritten wholesale by the reset. -/
def run_backup (env : BackupEnv) (cfg : BackupCfg) (_prev : Job) : Job :=
  match runBody env cfg resetJob with
  | .ok j => { j with running := false, finished_at := some env.now }
  | .error (msg, j) =>
    { j with result := some ("failed".toList), log := j.log ++ [msg],
             running := false, finished_at := some env.now }

/-! ## `start_backup` (fs_api.py lines 427-432) -/

/-- The `POST /backup` handler: when `JOB["running"]` it raises
`HTTPException(409)` and schedules nothing; otherwise it schedules
`run_backup` as a background task (the handler itself does not touch `JOB`).
The result is (HTTP error, resulting `JOB`, whether a run was scheduled). -/
def start_backup (job : Job) : Option Nat × Job × Bool :=
  if job.running then (some 409, job, false) else (none, job, true)

/-! ## Range-aware file streaming (fs_api.py lines 207-241) -/

/-- A partial-content response: status, `Content-Range` header text,
`Content-Length`, and the bytes produced by `iterfile`. -/
structure PartResp where
  status : Nat
  contentRange : List Char
  contentLength : Nat
  body : List Nat
deriving DecidableEq

/-- Response of `_file_stream_response`: a plain `FileResponse` when no
range header is present, or a 206 streaming response. -/
inductive FResp where
  | whole : FResp
  | part : PartResp → FResp
deriving DecidableEq

/-- The `Content-Range` f-string of line 237: `f"bytes {start}-{end}/{size}"`. -/
def contentRangeStr (start fin size : Int) : List Char :=
  "bytes ".toList ++ intToChars start ++ ['-'] ++ intToChars fin ++ ['/'] ++ intToChars size

/-- The `iterfile` generator of lines 225-234: seek to `pos`, then read
chunks of at most 512 KiB until `remaining` bytes are produced or the file
ends.  Each iteration yields at least one byte (or stops), so fuel
`remaining` drives the loop to its natural end. -/
def iterfileF : Nat → List Nat → Nat → Nat → List Nat
  | 0, _, _, _ => []
  | fuel + 1, file, pos, remaining =>
    if remaining = 0 then []
    else
      if ((file.drop pos).take (min (1024 * 512) remaining)) = [] then []
      else
        ((file.drop pos).take (min (1024 * 512) remaining)) ++
          iterfileF fuel file
            (pos + ((file.drop pos).take (min (1024 * 512) remaining)).length)
            (remaining - ((file.drop pos).take (min (1024 * 512) remaining)).length)

/-- Bytes produced by `iterfile` starting at `pos` for `remaining` bytes. -/
def iterfile (file : List Nat) (pos remaining : Nat) : List Nat :=
  iterfileF remaining file pos remaining

/-- `_file_stream_response` (lines 207-241) on a file with byte content
`file` and an optional `Range` header: no header streams the whole file;
otherwise the header is parsed as `bytes=<start>-<end>` (start defaulting to
`0`, end to `size-1`), `416` is raised for malformed headers or when
`start > end or end >= size`, and otherwise a 206 response is produced with
the `Content-Range`, `Content-Length` and body of the source. -/
def _file_stream_response (file : List Nat) (rangeHeader : Option (List Char)) :
    Except Nat FResp :=
  match rangeHeader with
  | none => .ok .whole
  | some h =>
    match pyPartition '=' h with
    | (_, none) => .error 416
    | (units, some rng) =>
      if units ≠ "bytes".toList ∨ rng = [] then .error 416
      else
        match (if (pyPartition '-' rng).1 = [] then some (0 : Int)
               else pyIntOpt (pyPartition '-' rng).1),
              (if ((pyPartition '-' rng).2.getD []) = [] then some ((file.length : Int) - 1)
               else pyIntOpt ((pyPartition '-' rng).2.getD [])) with
        | some start, some fin =>
          if start > fin ∨ (file.length : Int) ≤ fin then .error 416
          else
            .ok (.part
              { status := 206,
                contentRange := contentRangeStr start fin (file.length : Int),
                contentLength := (fin - start + 1).toNat,
                body := iterfile file start.toNat (fin - start + 1).toNat })
        | _, _ => .error 416

/-! ## AutoBackupWatchdog (fs_api.py lines 363-424) -/

/-- The `last_auto` fingerprint persisted after an auto-trigger. -/
structure LastAuto where
  drive : List Char
  mtime : Nat
  dst : List Char
  started_at : Nat
deriving DecidableEq

/-- The persisted settings record (`settings.json` after `load_settings`). -/
structure Settings where
  auto_backup : Bool
  last_auto : Option LastAuto
  auto_latched : Option (List Char × List Char)
deriving DecidableEq

/-- Environment of one watchdog tick: the `available_drives()` snapshot
(drive id and its `stat().st_mtime`), the live `JOB["running"]` flag, and
the current time. -/
structure TickEnv where
  roots : List (List Char × Nat)
  jobRunning : Bool
  now : Nat
deriving DecidableEq

/-- Stable descending insertion by modification time, matching Python's
stable `list.sort(key=mtime, reverse=True)` (equal keys keep their original
relative order). -/
def insertByMtimeDesc (x : List Char × Nat) :
    List (List Char × Nat) → List (List Char × Nat)
  | [] => [x]
  | y :: ys => if x.2 ≥ y.2 then x :: y :: ys else y :: insertByMtimeDesc x ys

/-- Stable descending sort by modification time (processed right to left so
earlier entries win ties, as Python's stable sort does). -/
def sortByMtimeDesc (l : List (List Char × Nat)) : List (List Char × Nat) :=
  l.foldr insertByMtimeDesc []

/-- `_pick_drive(roots, include, exclude)` (lines 363-372): keep the drives
whose lowered id contains `include` and (when given) does not contain
`exclude`, sort them by modification time descending (stable), and return
the first, if any. -/
def _pick_drive (roots : List (List Char × Nat)) (inc : List Char)
    (exc : Option (List Char)) : Option (List Char × Nat) :=
  (sortByMtimeDesc
    (roots.filter (fun kv =>
      listContains (pyLower inc) (pyLower kv.1) &&
      (match exc.map pyLower with
       | none => true
       | some e => !(listContains e (pyLower kv.1)))))).head?

/-- The dedupe comparison of lines 404-405:
`last.get("drive") == sd_id and last.get("mtime") == sd_mtime` (with
`last = settings.get("last_auto") or {}`). -/
def fingerprint_match (last : Option LastAuto) (d : List Char) (m : Nat) : Bool :=
  match last with
  | some la => la.drive == d && la.mtime == m
  | none => false

/-- `auto_backup_check()` (lines 375-424) as a function of the tick
environment and the loaded settings, returning the settings as persisted
after the tick and whether a backup run was started.  Branch order follows
the source: auto-backup disabled, job running, no drives (clearing a held
latch), missing sd/ssd candidate (clearing a held latch), latch held,
fingerprint identical, and finally the trigger, which records the new
fingerprint and latch. -/
def auto_backup_check (env : TickEnv) (settings : Settings) : Settings × Bool :=
  if !settings.auto_backup then (settings, false)
  else if env.jobRunning then (settings, false)
  else if env.roots = [] then
    (if settings.auto_latched.isSome then { settings with auto_latched := none }
     else settings, false)
  else
    match _pick_drive env.roots "sd".toList (some ("ssd".toList)),
          _pick_drive env.roots "ssd".toList none with
    | some sd, some ssd =>
      if settings.auto_latched.isSome then (settings, false)
      else if fingerprint_match settings.last_auto sd.1 sd.2 then (settings, false)
      else
        ({ settings with
             last_auto := some { drive := sd.1, mtime := sd.2, dst := ssd.1,
                                 started_at := env.now },
             auto_latched := some (sd.1, ssd.1) }, true)
    | _, _ =>
      (if settings.auto_latched.isSome then { settings with auto_latched := none }
       else settings, false)

/-! ## Concurrency model of the job-start path

`start_backup` (lines 427-432) reads `JOB["running"]` and, when false,
schedules `run_backup` to be executed later (FastAPI background task /
watchdog thread); `run_backup` only sets `JOB["running"] = True` as its own
first statement (lines 263-264).  The check and the set are therefore two
distinct atomic steps with no lock around them.  The model gives each of two
concurrent start requests a program counter; `check` performs the handler's
flag test, `begin` performs `run_backup`'s initial `JOB.update`, bumping the
count of concurrently executing copy runs. -/

/-- Program counter of one start request. -/
inductive Pc where
  | idle : Pc
  | passed : Pc
  | rejected : Pc
  | running : Pc
deriving DecidableEq

/-- Shared state for two concurrent start requests: the `JOB["running"]`
flag, each request's program counter, and the number of `run_backup`
executions currently in flight. -/
structure Sys2 where
  runningFlag : Bool
  pc1 : Pc
  pc2 : Pc
  active : Nat
deriving DecidableEq

/-- Atomic actions available to the two requests. -/
inductive Act where
  | check1 : Act
  | check2 : Act
  | begin1 : Act
  | begin2 : Act
deriving DecidableEq

/-- One atomic step: `checkN` is the `if JOB["running"]` test of
`start_backup`; `beginN` is the `JOB.update({"running": True, ...})` that
opens `run_backup`.  A guard violation yields `none`. -/
def execAct (s : Sys2) : Act → Option Sys2
  | .check1 =>
    if s.pc1 = Pc.idle then
      some { s with pc1 := if s.runningFlag then Pc.rejected else Pc.passed }
    else none
  | .check2 =>
    if s.pc2 = Pc.idle then
      some { s with pc2 := if s.runningFlag then Pc.rejected else Pc.passed }
    else none
  | .begin1 =>
    if s.pc1 = Pc.passed then
      some { s with runningFlag := true, pc1 := Pc.running, active := s.active + 1 }
    else none
  | .begin2 =>
    if s.pc2 = Pc.passed then
      some { s with runningFlag := true, pc2 := Pc.running, active := s.active + 1 }
    else none

/-- Execution of a sequence of atomic steps (an interleaving); `none` if a
guard fails along the way. -/
def execTrace (s : Sys2) : List Act → Option Sys2
  | [] => some s
  | a :: rest =>
    match execAct s a with
    | none => none
    | some s' => execTrace s' rest

/-- The quiescent initial state: no job running, both requests at entry. -/
def startRaceInit : Sys2 :=
  { runningFlag := false, pc1 := Pc.idle, pc2 := Pc.idle, active := 0 }


/-! ## Lemmas about the streaming loop -/

/-- The draining loop equals the pure splitter followed by a fold of
`processLine` over the extracted lines (both loops consume fuel in
lockstep). -/
lemma drainLoopF_eq (fuel : Nat) : ∀ (buf : List Char) (job : Job),
    drainLoopF fuel buf job =
      ((splitBufF fuel buf).2, ((splitBufF fuel buf).1).foldl processLine job) := by
  induction fuel with
  | zero => intro buf job; rfl
  | succ n ih =>
    intro buf job
    rcases h : findCut buf with _ | cut
    · simp [drainLoopF, splitBufF, h]
    · simp [drainLoopF, splitBufF, h, ih]

/-- The chunk-feeding loop equals the pure splitter over the whole chunk
sequence followed by one fold of `processLine`. -/
lemma feedLoop_eq : ∀ (chunks : List (List Char)) (buf : List Char) (job : Job),
    feedLoop chunks buf job =
      ((feedSplit chunks buf).2, ((feedSplit chunks buf).1).foldl processLine job) := by
  intro chunks
  induction chunks with
  | nil => intro buf job; rfl
  | cons c cs ih =>
    intro buf job
    simp [feedLoop, feedSplit, drainLoopF_eq, ih, List.foldl_append]

/-- A fold of `processLine` appends exactly the non-empty lines (newline
terminated) to the log, folds the `NN%` values into `progress` (last match
wins), and leaves every other field unchanged. -/
lemma foldl_processLine_eq : ∀ (ls : List (List Char)) (job : Job),
    ls.foldl processLine job =
      { job with
          log := job.log ++ (ls.filter (fun l => l ≠ [])).map (fun l => l ++ ['\n']),
          progress := ls.foldl (fun p l => (progress_search l none).getD p) job.progress } := by
  intro ls
  induction ls with
  | nil => intro job; simp
  | cons l ls ih =>
    intro job
    by_cases hl : l = []
    · subst hl
      simp [List.foldl_cons, processLine, progress_search, ih, List.filter_cons]
    · cases hps : progress_search l none with
      | none =>
        simp [List.foldl_cons, processLine, hl, hps, ih, List.filter_cons, List.append_assoc]
      | some n =>
        simp [List.foldl_cons, processLine, hl, hps, ih, List.filter_cons, List.append_assoc]

/-- Declarative description of `run_stream`: the log receives all non-empty
lines (complete lines first, then the unterminated leftover), each with a
trailing newline, in stream order; `progress` is the fold of the parsed
percentages over the complete lines only. -/
lemma run_stream_eq (chunks : List (List Char)) (job : Job) :
    run_stream chunks job =
      { job with
          log := job.log ++
            ((((feedSplit chunks []).1 ++ [(feedSplit chunks []).2]).filter
                (fun l => l ≠ [])).map (fun l => l ++ ['\n'])),
          progress := (feedSplit chunks []).1.foldl
            (fun p l => (progress_search l none).getD p) job.progress } := by
  unfold run_stream
  rw [feedLoop_eq]
  by_cases h : (feedSplit chunks []).2 = [] <;>
    simp [h, foldl_processLine_eq, List.filter_append, List.filter_cons, List.map_append,
      List.append_assoc]

/-- Folding percentage updates keeps `progress` at most 100 when it starts
there and every parsed value is at most 100. -/
lemma foldl_progress_bound :
    ∀ (ls : List (List Char)) (p : Nat), p ≤ 100 →
      (∀ l ∈ ls, (progress_search l none).getD 0 ≤ 100) →
      ls.foldl (fun p l => (progress_search l none).getD p) p ≤ 100 := by
  intro ls
  induction ls with
  | nil => intro p hp _; simpa using hp
  | cons l ls ih =>
    intro p hp hall
    simp only [List.foldl_cons]
    apply ih
    · cases hps : progress_search l none with
      | none => simpa using hp
      | some n =>
        have := hall l (by simp)
        simpa [hps] using this
    · intro x hx; exact hall x (by simp [hx])

/-- A successful `runBody` run returns the streamed job with the result set
to the exit-code classification. -/
lemma runBody_ok {env : BackupEnv} {cfg : BackupCfg} {job j' : Job}
    (h : runBody env cfg job = .ok j') :
    j' = { run_stream env.chunks job with result := some (classify_exit env.returncode) } := by
  unfold runBody at h
  repeat' split at h
  all_goals simp_all

/-! ## Claim C1 -/

/-- C1 (refuted; the code is at fault): the spec requires `safe_join` to
fail whenever the canonical result is not equal to or nested under the
canonical root, but the implementation tests `str(p).startswith(str(root))`
without a separator.  With root `/media/admin/sd`, the relative path
`../sdcard/x` resolves to `/media/admin/sdcard/x`, which is NOT nested under
the root, yet `safe_join` accepts it because the rendered string extends the
root string. -/
theorem safe_join_escape_bug :
    safe_join ["media".toList, "admin".toList, "sd".toList] "../sdcard/x".toList =
      .ok ["media".toList, "admin".toList, "sdcard".toList, "x".toList] ∧
    (["media".toList, "admin".toList, "sd".toList]).isPrefixOf
      (["media".toList, "admin".toList, "sdcard".toList, "x".toList]) = false :=
  ⟨rfl, by decide⟩

/-! ## Claim C2 -/

/-- C2: when a job is running, `start_backup` returns the 409 conflict,
schedules no run, and leaves every field of the job record unchanged. -/
theorem start_backup_conflict_preserves_job (job : Job) (h : job.running = true) :
    (start_backup job).1 = some 409 ∧ (start_backup job).2.2 = false ∧
    (start_backup job).2.1.running = job.running ∧
    (start_backup job).2.1.log = job.log ∧
    (start_backup job).2.1.progress = job.progress ∧
    (start_backup job).2.1.result = job.result ∧
    (start_backup job).2.1.finished_at = job.finished_at := by
  simp [start_backup, h]

/-- Concrete running job used to witness C2. -/
def jobW : Job :=
  { running := true, log := ["x".toList], progress := 55,
    result := none, finished_at := none }

/-- Witness for C2 at a concrete running job. -/
theorem start_backup_conflict_witness :
    (start_backup jobW).1 = some 409 ∧ (start_backup jobW).2.2 = false ∧
    (start_backup jobW).2.1.running = jobW.running ∧
    (start_backup jobW).2.1.log = jobW.log ∧
    (start_backup jobW).2.1.progress = jobW.progress ∧
    (start_backup jobW).2.1.result = jobW.result ∧
    (start_backup jobW).2.1.finished_at = jobW.finished_at :=
  start_backup_conflict_preserves_job jobW rfl

/-! ## Claim C3 -/

/-- C3: whatever the environment does (missing drives, sandbox rejection,
mkdir or spawn failure, any output and exit code), `run_backup` leaves the
job record terminal: `running` is false and `finished_at` is set; and when
the body raised an exception, the result is `"failed"` and the exception
text is appended to the log. -/
theorem run_backup_terminal (env : BackupEnv) (cfg : BackupCfg) (job : Job) :
    (run_backup env cfg job).running = false ∧
    (run_backup env cfg job).finished_at = some env.now ∧
    (∀ (msg : List Char) (j' : Job), runBody env cfg resetJob = .error (msg, j') →
      (run_backup env cfg job).result = some ("failed".toList) ∧
      (run_backup env cfg job).log = j'.log ++ [msg]) := by
  refine ⟨?_, ?_, ?_⟩
  · cases h : runBody env cfg resetJob with
    | ok j => simp [run_backup, h]
    | error e => cases e; simp [run_backup, h]
  · cases h : runBody env cfg resetJob with
    | ok j => simp [run_backup, h]
    | error e => cases e; simp [run_backup, h]
  · intro msg j' h
    simp [run_backup, h]

/-- Environment with no available drives: the `roots[...]` lookup raises
`KeyError` (the drive was removed between request and execution). -/
def envNoDrives : BackupEnv :=
  { roots := [], mkdirOk := true, spawnOk := true, chunks := [], returncode := 0,
    timestamp := [], now := 7 }

/-- A minimal backup request from drive `sd` to drive `ssd`. -/
def cfgSd : BackupCfg :=
  { src := { drive := "sd".toList, path := [] },
    dst := { drive := "ssd".toList, path := [] },
    items := [], backup_name := none, overwrite := false, verify := false }

/-- Witness for C3: with no drives available the run fails, logs the
`KeyError` text, and still terminates with `running = false` and a set
`finished_at`. -/
theorem run_backup_terminal_witness :
    (run_backup envNoDrives cfgSd resetJob).running = false ∧
    (run_backup envNoDrives cfgSd resetJob).finished_at = some 7 ∧
    (run_backup envNoDrives cfgSd resetJob).result = some ("failed".toList) ∧
    (run_backup envNoDrives cfgSd resetJob).log = [keyErrorText ("sd".toList)] := by
  have h := run_backup_terminal envNoDrives cfgSd resetJob
  have h3 := h.2.2 (keyErrorText ("sd".toList)) resetJob rfl
  exact ⟨h.1, h.2.1, h3.1, by simpa using h3.2⟩

/-! ## Claim C4 -/

/-- The source drive root `/media/admin/sd`. -/
def srcRootSd : List (List Char) := ["media".toList, "admin".toList, "sd".toList]

/-- C4 counterexample: with `src.path = "DCIM"`, the item `other/file.jpg`
is sandbox-resolved against the DRIVE ROOT (line 307 passes `src_root`, not
`src_path`, to `safe_join`), is accepted, and is copied even though it is
not under the resolved source path — refuting the claim that items are
confined beneath `src.path`. -/
theorem items_not_under_src_path :
    resolve_items srcRootSd ["other/file.jpg".toList] =
      .ok [srcRootSd ++ ["other".toList, "file.jpg".toList]] ∧
    safe_join srcRootSd "DCIM".toList = .ok (srcRootSd ++ ["DCIM".toList]) ∧
    rsync_sources srcRootSd (srcRootSd ++ ["DCIM".toList]) ["other/file.jpg".toList] =
      .ok [pathChars (srcRootSd ++ ["other".toList, "file.jpg".toList])] ∧
    (srcRootSd ++ ["DCIM".toList]).isPrefixOf
      (srcRootSd ++ ["other".toList, "file.jpg".toList]) = false :=
  ⟨rfl, rfl, rfl, by decide⟩

/-- C4 (amended): when `items` is non-empty and every item resolves through
the sandbox against the source drive root, the rsync sources are exactly the
resolved items, copied individually — the whole-subtree source is not used. -/
theorem rsync_sources_items_exact (src_root src_path : List (List Char))
    (items : List (List Char)) (rs : List (List (List Char)))
    (h1 : items ≠ []) (h2 : resolve_items src_root items = .ok rs) :
    rsync_sources src_root src_path items = .ok (rs.map pathChars) := by
  simp [rsync_sources, h1, h2, Except.map]

/-- Witness for the amended C4 at a concrete item list. -/
theorem rsync_sources_items_exact_witness :
    rsync_sources srcRootSd (srcRootSd ++ ["DCIM".toList]) ["DCIM/a.jpg".toList] =
      .ok [pathChars (srcRootSd ++ ["DCIM".toList, "a.jpg".toList])] := by
  have h := rsync_sources_items_exact srcRootSd (srcRootSd ++ ["DCIM".toList])
    ["DCIM/a.jpg".toList] [srcRootSd ++ ["DCIM".toList, "a.jpg".toList]] (by decide) rfl
  simpa using h

/-! ## Claim C6 -/

/-- C6: `run_backup` classifies the subprocess exit code: 0 is `"success"`,
23 and 24 are `"warning"`, any other code is `"failed"` (given the body ran
to completion, i.e. no exception occurred). -/
theorem run_backup_exit_classification (env : BackupEnv) (cfg : BackupCfg) (job j' : Job)
    (h : runBody env cfg resetJob = .ok j') :
    (env.returncode = 0 → (run_backup env cfg job).result = some ("success".toList)) ∧
    (env.returncode = 23 ∨ env.returncode = 24 →
      (run_backup env cfg job).result = some ("warning".toList)) ∧
    (env.returncode ≠ 0 ∧ env.returncode ≠ 23 ∧ env.returncode ≠ 24 →
      (run_backup env cfg job).result = some ("failed".toList)) := by
  have hres : (run_backup env cfg job).result = some (classify_exit env.returncode) := by
    simp [run_backup, h, runBody_ok h]
  refine ⟨?_, ?_, ?_⟩
  · intro hc; rw [hres]; simp [classify_exit, hc]
  · intro hc; rw [hres]
    rcases hc with hc | hc <;> simp [classify_exit, hc]
  · intro hc; rw [hres]; simp [classify_exit, hc.1, hc.2.1, hc.2.2]

/-- Environment for the C6 witness: both drives mounted, empty output,
exit code 23 (rsync "partial transfer"). -/
def envExit23 : BackupEnv :=
  { roots := [("sd".toList, ["media".toList, "admin".toList, "sd".toList]),
              ("ssd".toList, ["media".toList, "admin".toList, "ssd".toList])],
    mkdirOk := true, spawnOk := true, chunks := [], returncode := 23,
    timestamp := "2026-10-12_00-00-00".toList, now := 11 }

/-- Request for the C6 witness. -/
def cfgExit : BackupCfg :=
  { src := { drive := "sd".toList, path := [] },
    dst := { drive := "ssd".toList, path := [] },
    items := [], backup_name := none, overwrite := false, verify := false }

/-- Witness for C6: exit code 23 yields the `"warning"` result. -/
theorem run_backup_exit_classification_witness :
    (run_backup envExit23 cfgExit resetJob).result = some ("warning".toList) :=
  (run_backup_exit_classification envExit23 cfgExit resetJob
    { resetJob with result := some ("warning".toList) } rfl).2.1 (Or.inl rfl)

/-! ## Claim C7 -/

/-- C7: the output stream is split into lines on either newline or carriage
return, every non-empty line is appended (in order, newline-terminated) to
the log, and each parsed `NN%` value overwrites `progress`, the last parsed
value winning — concretely, output carrying `42%` and then `7%` leaves
`progress` at 7 (no clamping to the maximum seen). -/
theorem run_stream_line_split_progress :
    (∀ (chunks : List (List Char)) (job : Job),
      run_stream chunks job =
        { job with
            log := job.log ++
              ((((feedSplit chunks []).1 ++ [(feedSplit chunks []).2]).filter
                  (fun l => l ≠ [])).map (fun l => l ++ ['\n'])),
            progress := (feedSplit chunks []).1.foldl
              (fun p l => (progress_search l none).getD p) job.progress }) ∧
    (run_stream ["copy 42%\rcopy 7%\n".toList] resetJob).progress = 7 :=
  ⟨fun chunks job => run_stream_eq chunks job, by decide⟩

/-! ## Claim C9 -/

/-- C9 counterexample: the code does not clamp the parsed percentage, so a
stream containing the line `200%` drives `progress` to 200, outside the
0–100 range the claim asserts for every possible stream content. -/
theorem progress_exceeds_bound :
    (run_stream ["200%\n".toList] resetJob).progress = 200 ∧
    ¬ (run_stream ["200%\n".toList] resetJob).progress ≤ 100 := by decide

/-- C9 (amended): `progress` is a natural number (never negative), and it
stays at most 100 for every stream whose parsed `NN%` values are all at most
100, starting from any in-range value (the run starts it at 0). -/
theorem progress_bounded_amended (chunks : List (List Char)) (job : Job)
    (h1 : job.progress ≤ 100)
    (h2 : ∀ l ∈ (feedSplit chunks []).1, (progress_search l none).getD 0 ≤ 100) :
    (run_stream chunks job).progress ≤ 100 := by
  rw [run_stream_eq]
  exact foldl_progress_bound _ _ h1 h2

/-- Witness for the amended C9 on a concrete in-range stream. -/
theorem progress_bounded_amended_witness :
    (run_stream ["50%\n".toList] resetJob).progress ≤ 100 :=
  progress_bounded_amended ["50%\n".toList] resetJob (by decide) (by decide)

/-! ## Claim C8 -/

/-- A held latch makes a watchdog tick start nothing (every branch of
`auto_backup_check` reachable with `auto_latched` set returns
`started = false`). -/
lemma auto_backup_check_latched (env : TickEnv) (s : Settings)
    (h : s.auto_latched.isSome = true) : (auto_backup_check env s).2 = false := by
  unfold auto_backup_check
  repeat' split
  all_goals first | rfl | simp_all

/-- A watchdog tick either starts nothing or leaves the latch set in the
settings it persists (the trigger branch writes the latch synchronously). -/
lemma auto_backup_check_latches_on_start (env : TickEnv) (s : Settings) :
    (auto_backup_check env s).2 = false ∨
    ((auto_backup_check env s).1).auto_latched.isSome = true := by
  unfold auto_backup_check
  repeat' split
  all_goals first | exact Or.inl rfl | exact Or.inr rfl | simp_all

/-- C8: over two consecutive watchdog ticks in which the selected source
drive has the same id and modification time, at most one backup is started:
if the first tick triggers, it persists the latch (and fingerprint) before
returning, and the second tick is blocked by the latch. -/
theorem auto_backup_dedup (env1 env2 : TickEnv) (s0 : Settings) (i : List Char) (m : Nat)
    (h1 : _pick_drive env1.roots "sd".toList (some ("ssd".toList)) = some (i, m))
    (h2 : _pick_drive env2.roots "sd".toList (some ("ssd".toList)) = some (i, m)) :
    ¬ ((auto_backup_check env1 s0).2 = true ∧
       (auto_backup_check env2 (auto_backup_check env1 s0).1).2 = true) := by
  rintro ⟨hb1, hb2⟩
  rcases auto_backup_check_latches_on_start env1 s0 with hf | hl
  · rw [hf] at hb1; cases hb1
  · have hblock := auto_backup_check_latched env2 _ hl
    rw [hblock] at hb2; cases hb2

/-- Tick environment for the C8 witness: an SD card and an SSD present,
no job running. -/
def tickEnvW : TickEnv :=
  { roots := [("sd_card".toList, 5), ("ssd_drive".toList, 3)],
    jobRunning := false, now := 0 }

/-- Settings for the C8 witness: auto-backup enabled, no fingerprint, no
latch. -/
def settingsW : Settings :=
  { auto_backup := true, last_auto := none, auto_latched := none }

/-- Witness for C8: the first tick actually starts a backup, and the pair of
identical consecutive ticks cannot both start one. -/
theorem auto_backup_dedup_witness :
    (auto_backup_check tickEnvW settingsW).2 = true ∧
    ¬ ((auto_backup_check tickEnvW settingsW).2 = true ∧
       (auto_backup_check tickEnvW (auto_backup_check tickEnvW settingsW).1).2 = true) :=
  ⟨rfl, auto_backup_dedup tickEnvW tickEnvW settingsW ("sd_card".toList) 5 rfl rfl⟩

/-! ## Claim C10 -/

/-- C10 (refuted; the code is at fault): the claim says the check of the
running flag and the launch form an atomic check-and-set, so two concurrent
runs are impossible.  In the code the check (`start_backup`, lines 429-430)
and the flag set (`run_backup`'s first statement, lines 263-264, executed
later on a background task/thread) are separate unguarded steps.  The
interleaving check1, check2, begin1, begin2 is valid from the quiescent
state and ends with two copy runs executing concurrently (`active = 2`). -/
theorem start_backup_race :
    execTrace startRaceInit [Act.check1, Act.check2, Act.begin1, Act.begin2] =
      some { runningFlag := true, pc1 := Pc.running, pc2 := Pc.running, active := 2 } := by
  decide

/-! ## Lemmas for claim C5 -/

/-- `str.partition` splits at the first occurrence of the separator. -/
lemma pyPartition_split (c : Char) :
    ∀ (pre post : List Char), (∀ x ∈ pre, x ≠ c) →
      pyPartition c (pre ++ c :: post) = (pre, some post) := by
  intro pre
  induction pre with
  | nil => intro post _; simp [pyPartition]
  | cons a pre ih =>
    intro post h
    have ha : a ≠ c := h a (by simp)
    simp [pyPartition, ha, ih post (fun x hx => h x (by simp [hx]))]

/-- Digit characters differ from any fixed non-digit character. -/
lemma all_digits_ne (l : List Char) (c : Char) (hc : c.isDigit = false)
    (h : l.all Char.isDigit = true) : ∀ x ∈ l, x ≠ c := by
  intro x hx hcontra
  have hdig := List.all_eq_true.mp h x hx
  rw [hcontra] at hdig
  simp [hc] at hdig

/-- `int()` on a non-empty all-digit numeral yields its decimal value. -/
lemma pyIntOpt_digits (l : List Char) (h1 : l ≠ []) (h2 : l.all Char.isDigit = true) :
    pyIntOpt l = some (digitsVal l : Int) := by
  cases l with
  | nil => simp at h1
  | cons a rest =>
    have ha : a ≠ '-' := by
      have hd := List.all_eq_true.mp h2 a (by simp)
      intro hcontra
      rw [hcontra] at hd
      have hnd : ('-' : Char).isDigit = false := by decide
      rw [hnd] at hd
      cases hd
    simp [pyIntOpt, ha, h2]

/-- The `iterfile` loop delivers exactly `remaining` bytes whenever the
request stays inside the file and the fuel is at least `remaining`. -/
lemma iterfileF_length :
    ∀ (fuel : Nat) (file : List Nat) (pos remaining : Nat),
      remaining ≤ fuel → pos + remaining ≤ file.length →
      (iterfileF fuel file pos remaining).length = remaining := by
  intro fuel
  induction fuel with
  | zero =>
    intro file pos remaining h1 _
    simp only [iterfileF, List.length_nil]
    omega
  | succ n ih =>
    intro file pos remaining h1 h2
    by_cases h0 : remaining = 0
    · simp [iterfileF, h0]
    · have hchunklen : ((file.drop pos).take (min (1024 * 512) remaining)).length
          = min (1024 * 512) remaining := by
        simp only [List.length_take, List.length_drop]
        omega
      have hne : ((file.drop pos).take (min (1024 * 512) remaining)) ≠ [] := by
        intro hcontra
        have hlen := congrArg List.length hcontra
        rw [hchunklen] at hlen
        simp at hlen
        omega
      rw [iterfileF, if_neg h0, if_neg hne, List.length_append, hchunklen, ih]
      · omega
      · omega
      · omega

/-- Bytes delivered by `iterfile` for an in-file range. -/
lemma iterfile_length (file : List Nat) (pos remaining : Nat)
    (h : pos + remaining ≤ file.length) :
    (iterfile file pos remaining).length = remaining :=
  iterfileF_length remaining file pos remaining (Nat.le_refl _) h

/-! ## Claim C5 -/

/-- C5: for a `Range: bytes=<start>-<end>` header over an `N`-byte file,
`_file_stream_response` answers 206 with `Content-Range: bytes s-e/N`,
`Content-Length = e-s+1` and exactly `e-s+1` body bytes when
`s ≤ e ∧ e ≤ N-1`, and it fails with 416 exactly when `s > e` or `e` points
past the last byte (the code's `end >= size`, the claim's "end exceeds the
file size"); an omitted end defaults to `N-1` and an omitted start to `0`. -/
theorem file_stream_range_spec (file : List Nat) (sC eC : List Char) (s e : Nat)
    (hs1 : sC ≠ []) (hs2 : sC.all Char.isDigit = true) (hs3 : digitsVal sC = s)
    (he1 : eC ≠ []) (he2 : eC.all Char.isDigit = true) (he3 : digitsVal eC = e) :
    (s ≤ e → e < file.length →
      _file_stream_response file (some ("bytes=".toList ++ sC ++ '-' :: eC)) =
        .ok (.part
          { status := 206,
            contentRange := contentRangeStr (s : Int) (e : Int) (file.length : Int),
            contentLength := e - s + 1,
            body := iterfile file s (e - s + 1) }) ∧
      (iterfile file s (e - s + 1)).length = e - s + 1) ∧
    (file.length ≤ e ∨ e < s →
      _file_stream_response file (some ("bytes=".toList ++ sC ++ '-' :: eC)) = .error 416) ∧
    (s < file.length →
      _file_stream_response file (some ("bytes=".toList ++ sC ++ ['-'])) =
        .ok (.part
          { status := 206,
            contentRange := contentRangeStr (s : Int) ((file.length : Int) - 1)
              (file.length : Int),
            contentLength := file.length - s,
            body := iterfile file s (file.length - s) })) ∧
    (e < file.length →
      _file_stream_response file (some ("bytes=-".toList ++ eC)) =
        .ok (.part
          { status := 206,
            contentRange := contentRangeStr 0 (e : Int) (file.length : Int),
            contentLength := e + 1,
            body := iterfile file 0 (e + 1) })) := by
  have hb : "bytes=".toList = "bytes".toList ++ ['='] := by decide
  have hb2 : "bytes=-".toList = "bytes".toList ++ ['=', '-'] := by decide
  have hsC : ∀ x ∈ sC, x ≠ '-' := all_digits_ne sC '-' (by decide) hs2
  have hsplit1 : pyPartition '=' ("bytes=".toList ++ sC ++ '-' :: eC) =
      ("bytes".toList, some (sC ++ '-' :: eC)) := by
    have hh : "bytes=".toList ++ sC ++ '-' :: eC =
        "bytes".toList ++ '=' :: (sC ++ '-' :: eC) := by
      rw [hb]; simp
    rw [hh]
    exact pyPartition_split '=' "bytes".toList (sC ++ '-' :: eC) (by decide)
  have hsplit1b : pyPartition '=' ("bytes=".toList ++ sC ++ ['-']) =
      ("bytes".toList, some (sC ++ ['-'])) := by
    have hh : "bytes=".toList ++ sC ++ ['-'] = "bytes".toList ++ '=' :: (sC ++ ['-']) := by
      rw [hb]; simp
    rw [hh]
    exact pyPartition_split '=' "bytes".toList (sC ++ ['-']) (by decide)
  have hsplit1c : pyPartition '=' ("bytes=-".toList ++ eC) =
      ("bytes".toList, some ('-' :: eC)) := by
    have hh : "bytes=-".toList ++ eC = "bytes".toList ++ '=' :: ('-' :: eC) := by
      rw [hb2]; simp
    rw [hh]
    exact pyPartition_split '=' "bytes".toList ('-' :: eC) (by decide)
  have hsplit2 : pyPartition '-' (sC ++ '-' :: eC) = (sC, some eC) :=
    pyPartition_split '-' sC eC hsC
  have hsplit2b : pyPartition '-' (sC ++ ['-']) = (sC, some []) :=
    pyPartition_split '-' sC [] hsC
  have hsplit2c : pyPartition '-' ('-' :: eC) = ([], some eC) := by
    simp [pyPartition]
  have hints : pyIntOpt sC = some (s : Int) := by
    rw [pyIntOpt_digits sC hs1 hs2, hs3]
  have hinte : pyIntOpt eC = some (e : Int) := by
    rw [pyIntOpt_digits eC he1 he2, he3]
  refine ⟨?_, ?_, ?_, ?_⟩
  · intro hle hlt
    have hcond : ¬ ((s : Int) > (e : Int) ∨ (file.length : Int) ≤ (e : Int)) := by omega
    have htoNat : ((e : Int) - (s : Int) + 1).toNat = e - s + 1 := by omega
    have hsToNat : ((s : Int)).toNat = s := by omega
    refine ⟨?_, iterfile_length file s (e - s + 1) (by omega)⟩
    simp only [_file_stream_response, hsplit1, hsplit2, Option.getD_some, hints, hinte]
    simp [hs1, he1, hcond, htoNat, hsToNat]
    omega
  · intro hbad
    have hcond : (s : Int) > (e : Int) ∨ (file.length : Int) ≤ (e : Int) := by omega
    simp only [_file_stream_response, hsplit1, hsplit2, Option.getD_some, hints, hinte]
    simp [hs1, he1, hcond]
    omega
  · intro hlt
    have hcond : ¬ ((s : Int) > (file.length : Int) - 1 ∨
        (file.length : Int) ≤ (file.length : Int) - 1) := by omega
    have htoNat : ((file.length : Int) - 1 - (s : Int) + 1).toNat = file.length - s := by
      omega
    have hsToNat : ((s : Int)).toNat = s := by omega
    simp only [_file_stream_response, hsplit1b, hsplit2b, Option.getD_some, hints]
    simp [hs1, hcond, htoNat, hsToNat]
    omega
  · intro hlt
    have hcond : ¬ ((0 : Int) > (e : Int) ∨ (file.length : Int) ≤ (e : Int)) := by omega
    have htoNat : ((e : Int) - 0 + 1).toNat = e + 1 := by omega
    have h0 : ((0 : Int)).toNat = 0 := rfl
    simp only [_file_stream_response, hsplit1c, hsplit2c, Option.getD_some, hinte]
    simp [he1, hcond, htoNat, h0]
    omega

/-- Witness for C5: on a 1000-byte file, `bytes=100-199` yields a 206
response carrying exactly 100 bytes with `Content-Range: bytes 100-199/1000`,
and `bytes=900-999999` yields 416. -/
theorem file_stream_range_witness :
    _file_stream_response (List.replicate 1000 0) (some ("bytes=100-199".toList)) =
      .ok (.part
        { status := 206,
          contentRange := contentRangeStr 100 199 1000,
          contentLength := 100,
          body := iterfile (List.replicate 1000 0) 100 100 }) ∧
    (iterfile (List.replicate 1000 0) 100 100).length = 100 ∧
    contentRangeStr 100 199 1000 = "bytes 100-199/1000".toList ∧
    _file_stream_response (List.replicate 1000 0) (some ("bytes=900-999999".toList)) =
      .error 416 := by
  have h1 := (file_stream_range_spec (List.replicate 1000 0) "100".toList "199".toList
    100 199 (by decide) (by decide) (by decide) (by decide) (by decide) (by decide)).1
    (by omega) (by simp)
  have h2 := (file_stream_range_spec (List.replicate 1000 0) "900".toList "999999".toList
    900 999999 (by decide) (by decide) (by decide) (by decide) (by decide) (by decide)).2.1
    (by simp)
  have hh1 : "bytes=".toList ++ "100".toList ++ '-' :: "199".toList =
      "bytes=100-199".toList := by decide
  have hh2 : "bytes=".toList ++ "900".toList ++ '-' :: "999999".toList =
      "bytes=900-999999".toList := by decide
  rw [hh1] at h1
  rw [hh2] at h2
  refine ⟨?_, ?_, by decide, h2⟩
  · have := h1.1
    simpa using this
  · have := h1.2
    simpa using this
